import Mathlib

/-!
Verification of the durable-workflow orchestration demo (`src/main.py`)
against its design spec.

The repository contains the workflow body `hello_world_workflow`, the
activity `hello_world_activity`, the retry policy `retry_policy` and the
FastAPI control-plane endpoint `start_hello_workflow`; those are embedded
here directly from the source.  The orchestration engine itself (replay,
retry-governed activity execution, fan-out/fan-in, instance manager) is
consumed from the Dapr SDK and is not present in the source tree; those
components are modelled from the spec (sections 3, 4.1-4.4) and marked
`Modelled from the spec:` in their doc comments.
-/

/-- Spec section 3: the tagged event variants appearing in an instance's
history that the demo workload can produce.  Timer events never occur in
this workload and are omitted. -/
inductive Event where
  | ActivityScheduled (callId : Nat) (activityName : String)
  | ActivityCompleted (callId : Nat) (output : String)
  | ActivityFailed (callId : Nat) (error : String) (attemptNumber : Nat)
  | OrchestratorCompleted (result : String)
deriving DecidableEq

/-- Spec section 3: instance status lifecycle. -/
inductive WStatus where
  | Pending
  | Running
  | Completed
  | Failed
  | Terminated
deriving DecidableEq

/-- Spec section 3: an orchestration instance: status plus append-only
event history. -/
structure Instance where
  status : WStatus
  history : List Event
deriving DecidableEq

/-- From `src/main.py` lines 27-33: the retry policy record attached to
every activity call of the demo workflow.  Intervals are in whole
seconds, as in the source (`timedelta(seconds=...)`). -/
structure RetryPolicy where
  firstRetryInterval : Nat
  maxNumberOfAttempts : Nat
  backoffCoefficient : Nat
  maxRetryInterval : Nat
  retryTimeout : Nat
deriving DecidableEq

/-- From `src/main.py` lines 27-33: `wf.RetryPolicy(first_retry_interval=1s,
max_number_of_attempts=3, backoff_coefficient=2, max_retry_interval=10s,
retry_timeout=100s)`. -/
def retry_policy : RetryPolicy :=
  { firstRetryInterval := 1
    maxNumberOfAttempts := 3
    backoffCoefficient := 2
    maxRetryInterval := 10
    retryTimeout := 100 }

/-- From `src/main.py` lines 37-51: the activity body.  Its inputs are the
workflow id carried on the activity context, the workflow-state lookup
result obtained from `wf_client.get_workflow_state` (`none` models a
deleted/unknown instance), and the formatted timestamp.  The result is
the pair (lines printed to the log, returned output).  When no workflow
state exists the activity prints the anomaly message and returns "Done"
without running the normal hello-world branch; otherwise it prints and
returns the timestamped hello message. -/
def hello_world_activity (workflowId : String) (workflowState : Option Instance)
    (timestamp : String) : List String × String :=
  match workflowState with
  | none =>
    (["No workflow state found for " ++ workflowId ++
        " but activity is being executed anyways!!!!!!!!!"], "Done")
  | some _ =>
    (["Hello world! - " ++ timestamp], "Hello world! - " ++ timestamp)

/-- Spec section 4.2: retry delay before attempt `attempt + 1`, namely
`min(first_retry_interval * backoff_coefficient^(attempt-1),
max_retry_interval)`. -/
def retryDelay (p : RetryPolicy) (attempt : Nat) : Nat :=
  min (p.firstRetryInterval * p.backoffCoefficient ^ (attempt - 1)) p.maxRetryInterval

/-- Outcome of the activity executor for one call: the events it appended,
the retry delays it waited, whether it surfaced an exhausted failure, and
the successful output if any. -/
structure ExecOutcome where
  events : List Event
  delays : List Nat
  exhausted : Bool
  output : Option String
deriving DecidableEq

/-- Modelled from the spec: the Activity Executor's attempt loop (spec
section 4.2), absent from `src/` (it lives in the Dapr SDK).  `attemptResult
n` is the result of running the registered activity implementation on
attempt `n` (1-based).  On success it appends `ActivityCompleted`; on
failure it appends `ActivityFailed{attempt_number}` and, if
`attempt_number < max_attempts` and elapsed time is below the retry
timeout, waits `retryDelay` and retries; otherwise it surfaces an
exhausted failure.  `fuel` bounds the recursion and is instantiated with
`max_attempts`. -/
def runAttempts (p : RetryPolicy) (callId : Nat) (attemptResult : Nat → Except String String) :
    Nat → Nat → Nat → ExecOutcome
  | 0, _, _ => { events := [], delays := [], exhausted := true, output := none }
  | fuel + 1, attempt, elapsed =>
    match attemptResult attempt with
    | .ok out =>
      { events := [.ActivityCompleted callId out], delays := [], exhausted := false,
        output := some out }
    | .error err =>
      if attempt < p.maxNumberOfAttempts && elapsed < p.retryTimeout then
        let d := retryDelay p attempt
        let rest := runAttempts p callId attemptResult fuel (attempt + 1) (elapsed + d)
        { events := Event.ActivityFailed callId err attempt :: rest.events,
          delays := d :: rest.delays,
          exhausted := rest.exhausted,
          output := rest.output }
      else
        { events := [.ActivityFailed callId err attempt], delays := [], exhausted := true,
          output := none }

/-- Modelled from the spec: `execute(activity_name, input, retry_policy) ->
output | exhausted_failure` (spec section 4.2), starting at attempt 1 with
zero elapsed time. -/
def execute (p : RetryPolicy) (callId : Nat) (attemptResult : Nat → Except String String) :
    ExecOutcome :=
  runAttempts p callId attemptResult p.maxNumberOfAttempts 1 0

/-- Number of `ActivityFailed` events in a history fragment. -/
def countFailed (h : List Event) : Nat :=
  h.countP fun e => match e with
    | .ActivityFailed _ _ _ => true
    | _ => false

/-- Claim C1: when the owning instance's workflow state is deleted or
unknown at execution time (`get_workflow_state` finds nothing), the
dispatched activity still runs to completion — it returns the output
"Done" — and it reports the anomaly by printing the
no-workflow-state message rather than completing silently. -/
theorem activity_runs_and_reports_when_state_missing (workflowId timestamp : String) :
    (hello_world_activity workflowId none timestamp).2 = "Done" ∧
    (hello_world_activity workflowId none timestamp).1 =
      ["No workflow state found for " ++ workflowId ++
        " but activity is being executed anyways!!!!!!!!!"] :=
  ⟨rfl, rfl⟩

/-- Claim C2: under the source's retry policy (first interval 1s, 3
attempts, backoff coefficient 2, cap 10s), an activity that fails on
every attempt is retried after delays of exactly 1s and then 2s — each
delay being `min(first_retry_interval * backoff_coefficient^(attempt-1),
max_retry_interval)` — then surfaces an exhausted failure, with exactly 3
`ActivityFailed` events appended (one per attempt, attempt numbers 1, 2,
3). -/
theorem retry_backoff_exhaustion (err : Nat → String) :
    (execute retry_policy 0 (fun n => .error (err n))).delays =
      [retryDelay retry_policy 1, retryDelay retry_policy 2] ∧
    retryDelay retry_policy 1 = 1 ∧
    retryDelay retry_policy 2 = 2 ∧
    (execute retry_policy 0 (fun n => .error (err n))).exhausted = true ∧
    countFailed (execute retry_policy 0 (fun n => .error (err n))).events = 3 ∧
    (execute retry_policy 0 (fun n => .error (err n))).events =
      [.ActivityFailed 0 (err 1) 1, .ActivityFailed 0 (err 2) 2, .ActivityFailed 0 (err 3) 3] :=
  ⟨rfl, rfl, rfl, rfl, rfl, rfl⟩

/-- Whether `h` already contains an `ActivityScheduled` event for call id
`c` (spec section 4.1: consult the history before emitting a command). -/
def scheduledIn (h : List Event) (c : Nat) : Bool :=
  h.any fun e => match e with
    | .ActivityScheduled cid _ => cid == c
    | _ => false

/-- The recorded output of call id `c` in `h`, if an `ActivityCompleted`
event for it exists (spec section 4.1: substitute the recorded output on
replay). -/
def completedOutput : List Event → Nat → Option String
  | [], _ => none
  | .ActivityCompleted cid out :: h, c =>
    if cid == c then some out else completedOutput h c
  | _ :: h, c => completedOutput h c

/-- The recorded exhausted-failure error of call id `c` in `h`: an
`ActivityFailed` event whose attempt number reached the policy's
`max_number_of_attempts` (spec sections 3 and 4.2). -/
def exhaustedIn (h : List Event) (c : Nat) : Option String :=
  h.findSome? fun e => match e with
    | .ActivityFailed cid err n =>
      if cid == c && n == retry_policy.maxNumberOfAttempts then some err else none
    | _ => none

/-- Call id `c` has a terminal event in `h`: Completed, or Failed after
retry exhaustion (spec section 3, Fan-Out Batch). -/
def isTerminalIn (h : List Event) (c : Nat) : Bool :=
  (completedOutput h c).isSome || (exhaustedIn h c).isSome

/-- Modelled from the spec: the Fan-Out/Fan-In Coordinator's join (spec
section 4.3), absent from `src/` (the SDK's `when_all`).  Given the batch's
call ids in submission order, returns the members' outputs in submission
order once every member has a Completed event in the history, `none`
while any member is still unresolved. -/
def joinResults : List Nat → List Event → Option (List String)
  | [], _ => some []
  | c :: cs, h =>
    match completedOutput h c, joinResults cs h with
    | some o, some os => some (o :: os)
    | _, _ => none

/-- The activity name under which `src/main.py` line 77 registers the
activity. -/
def activityName : String := "hello_world_activity"

/-- The next decision of one replay pass, from the orchestration engine's
point of view (spec section 4.1): either suspend after emitting
activity-call commands (call id, activity name), or complete with the
orchestrator's return value, or fail with the unrecovered error the
orchestrator re-raised. -/
inductive Decision where
  | suspend (cmds : List (Nat × String))
  | complete (result : String)
  | fail (error : String)
deriving DecidableEq

/-- The `ActivityScheduled` commands a batch starting at call id `k` still
needs: one per member (`for _ in range(3)` in `src/main.py` lines 64-67)
whose scheduling is not yet recorded in the history. -/
def batchCmds (k : Nat) (h : List Event) : List (Nat × String) :=
  ([k, k + 1, k + 2].filter fun c => !scheduledIn h c).map fun c => (c, activityName)

/-- The first exhausted failure among the batch starting at call id `k`,
if any: the workflow body's `except` clause re-raises it (`src/main.py`
lines 69-71), so the join fails as a whole (spec section 4.3). -/
def batchExhausted (k : Nat) (h : List Event) : Option String :=
  [k, k + 1, k + 2].findSome? fun c => exhaustedIn h c

/-- Modelled from the spec: the replay algorithm of the Orchestration
Engine (spec section 4.1), absent from `src/` (the SDK runtime), applied
to the workflow body of `src/main.py` lines 56-73: `iters` remaining loop
iterations, each issuing a batch of 3 concurrent calls to
`hello_world_activity` at the next sequential call ids and joining on all
of them before the next iteration; after the loop the orchestrator
returns "Done".  A batch already fully completed in the history is
substituted instantly; a batch containing an exhausted failure makes the
body re-raise; otherwise the engine emits the batch's missing
`ActivityScheduled` commands and suspends. -/
def replayIter : Nat → Nat → List Event → Decision
  | 0, _, _ => .complete "Done"
  | iters + 1, k, h =>
    match joinResults [k, k + 1, k + 2] h with
    | some _ => replayIter iters (k + 3) h
    | none =>
      match batchExhausted k h with
      | some err => .fail err
      | none => .suspend (batchCmds k h)

/-- One replay pass of `hello_world_workflow` (10 iterations, starting at
call id 0) against a history prefix. -/
def nextDecision (h : List Event) : Decision :=
  replayIter 10 0 h

/-- One replay pass as invoked by a worker whose wall clock reads `now`.
The clock is available to the orchestration body through its context, but
`hello_world_workflow` (`src/main.py` lines 56-73) never reads it, so the
decision depends on the history prefix alone. -/
def nextDecisionAt (_now : Nat) (h : List Event) : Decision :=
  replayIter 10 0 h

/-- The `ActivityScheduled` events appended when the engine emits
commands. -/
def schedEvents (cmds : List (Nat × String)) : List Event :=
  cmds.map fun p => .ActivityScheduled p.1 p.2

/-- The `ActivityCompleted` events appended when every command's activity
succeeds, with `f c` the output of call id `c`. -/
def compEvents (f : Nat → String) (cmds : List (Nat × String)) : List Event :=
  cmds.map fun p => .ActivityCompleted p.1 (f p.1)

/-- Modelled from the spec: one decision cycle of the data-flow loop (spec
section 2) in the run where every activity attempt succeeds: replay,
append the emitted `ActivityScheduled` events and then each activity's
`ActivityCompleted` event, or append the terminal event.  The instance
transitions to Running on a suspension and to Completed/Failed on a
terminal decision (spec section 3, Lifecycle). -/
def cycle (f : Nat → String) : Instance → Instance
  | { status := _, history := h } =>
    match nextDecision h with
    | .suspend cmds =>
      { status := .Running, history := h ++ schedEvents cmds ++ compEvents f cmds }
    | .complete r =>
      { status := .Completed, history := h ++ [.OrchestratorCompleted r] }
    | .fail _ =>
      { status := .Failed, history := h }

/-- Whether a status is terminal. -/
def isTerminalStatus : WStatus → Bool
  | .Completed => true
  | .Failed => true
  | .Terminated => true
  | _ => false

/-- Iterate decision cycles until the instance reaches a terminal status,
bounded by fuel. -/
def runLoop (f : Nat → String) : Nat → Instance → Instance
  | 0, inst => inst
  | n + 1, { status := st, history := h } =>
    if isTerminalStatus st then { status := st, history := h }
    else runLoop f n (cycle f { status := st, history := h })

/-- A full run of the demo workload from a freshly scheduled instance
(status Pending, empty history), in which every activity call succeeds
with output `f callId`.  Fuel 20 exceeds the 11 cycles the workload
needs. -/
def runWorkload (f : Nat → String) : Instance :=
  runLoop f 20 { status := .Pending, history := [] }

/-- Number of `ActivityScheduled` events. -/
def countScheduled (h : List Event) : Nat :=
  h.countP fun e => match e with
    | .ActivityScheduled _ _ => true
    | _ => false

/-- Number of `ActivityCompleted` events. -/
def countCompleted (h : List Event) : Nat :=
  h.countP fun e => match e with
    | .ActivityCompleted _ _ => true
    | _ => false

/-- Number of `OrchestratorCompleted` events. -/
def countOrchestratorCompleted (h : List Event) : Nat :=
  h.countP fun e => match e with
    | .OrchestratorCompleted _ => true
    | _ => false

/-- The orchestrator's recorded result, if the history holds an
`OrchestratorCompleted` event. -/
def finalResult (inst : Instance) : Option String :=
  inst.history.findSome? fun e => match e with
    | .OrchestratorCompleted r => some r
    | _ => none

/-- The six events one successful iteration `m` appends: its three
`ActivityScheduled` commands followed by the three `ActivityCompleted`
results. -/
def iterEvents (m : Nat) (f : Nat → String) : List Event :=
  [.ActivityScheduled (3 * m) activityName,
   .ActivityScheduled (3 * m + 1) activityName,
   .ActivityScheduled (3 * m + 2) activityName,
   .ActivityCompleted (3 * m) (f (3 * m)),
   .ActivityCompleted (3 * m + 1) (f (3 * m + 1)),
   .ActivityCompleted (3 * m + 2) (f (3 * m + 2))]

/-- The events of `count` consecutive successful iterations starting at
iteration `start`. -/
def histSuffix (f : Nat → String) : Nat → Nat → List Event
  | 0, _ => []
  | count + 1, start => iterEvents start f ++ histSuffix f count (start + 1)

/-- The history after the first `m` iterations of an all-success run. -/
def histUpTo (m : Nat) (f : Nat → String) : List Event :=
  histSuffix f m 0

/-- The full history of an all-success run: 10 iterations followed by the
terminal event. -/
def fullHist (f : Nat → String) : List Event :=
  histUpTo 10 f ++ [.OrchestratorCompleted "Done"]

/-- One unfolding of the run loop on a non-terminal instance. -/
theorem runLoop_step (f : Nat → String) (n : Nat) (st : WStatus) (h : List Event)
    (hst : isTerminalStatus st = false) :
    runLoop f (n + 1) { status := st, history := h } =
      runLoop f n (cycle f { status := st, history := h }) := by
  simp [runLoop, hst]

/-- The run loop leaves a terminal instance unchanged. -/
theorem runLoop_done (f : Nat → String) (n : Nat) (st : WStatus) (h : List Event)
    (hst : isTerminalStatus st = true) :
    runLoop f (n + 1) { status := st, history := h } =
      { status := st, history := h } := by
  simp [runLoop, hst]

/-- Evaluation of the all-success run, one decision cycle at a time: the
workload drives the instance to Completed with history `fullHist f`. -/
theorem runWorkload_eq (f : Nat → String) :
    runWorkload f = { status := .Completed, history := fullHist f } := by
  show runLoop f 20 { status := .Pending, history := [] } = _
  rw [runLoop_step f 19 .Pending [] rfl]
  rw [show cycle f { status := .Pending, history := [] } =
      { status := .Running, history := histUpTo 1 f } from rfl]
  rw [runLoop_step f 18 .Running (histUpTo 1 f) rfl]
  rw [show cycle f { status := .Running, history := histUpTo 1 f } =
      { status := .Running, history := histUpTo 2 f } from rfl]
  rw [runLoop_step f 17 .Running (histUpTo 2 f) rfl]
  rw [show cycle f { status := .Running, history := histUpTo 2 f } =
      { status := .Running, history := histUpTo 3 f } from rfl]
  rw [runLoop_step f 16 .Running (histUpTo 3 f) rfl]
  rw [show cycle f { status := .Running, history := histUpTo 3 f } =
      { status := .Running, history := histUpTo 4 f } from rfl]
  rw [runLoop_step f 15 .Running (histUpTo 4 f) rfl]
  rw [show cycle f { status := .Running, history := histUpTo 4 f } =
      { status := .Running, history := histUpTo 5 f } from rfl]
  rw [runLoop_step f 14 .Running (histUpTo 5 f) rfl]
  rw [show cycle f { status := .Running, history := histUpTo 5 f } =
      { status := .Running, history := histUpTo 6 f } from rfl]
  rw [runLoop_step f 13 .Running (histUpTo 6 f) rfl]
  rw [show cycle f { status := .Running, history := histUpTo 6 f } =
      { status := .Running, history := histUpTo 7 f } from rfl]
  rw [runLoop_step f 12 .Running (histUpTo 7 f) rfl]
  rw [show cycle f { status := .Running, history := histUpTo 7 f } =
      { status := .Running, history := histUpTo 8 f } from rfl]
  rw [runLoop_step f 11 .Running (histUpTo 8 f) rfl]
  rw [show cycle f { status := .Running, history := histUpTo 8 f } =
      { status := .Running, history := histUpTo 9 f } from rfl]
  rw [runLoop_step f 10 .Running (histUpTo 9 f) rfl]
  rw [show cycle f { status := .Running, history := histUpTo 9 f } =
      { status := .Running, history := histUpTo 10 f } from rfl]
  rw [runLoop_step f 9 .Running (histUpTo 10 f) rfl]
  rw [show cycle f { status := .Running, history := histUpTo 10 f } =
      { status := .Completed, history := fullHist f } from rfl]
  rw [runLoop_done f 8 .Completed (fullHist f) rfl]

/-- Claim C3: a run of the loop-of-10-iterations-of-3-concurrent-calls
workload in which every activity call succeeds (with arbitrary outputs
`f`) ends with the instance Completed and a history of exactly 30
`ActivityScheduled`/`ActivityCompleted` pairs plus one
`OrchestratorCompleted` event: 30 scheduled, 30 completed (every call id
below 30 scheduled and completed), one terminal event, 61 events in
total. -/
theorem workload_completes_with_thirty_pairs (f : Nat → String) :
    (runWorkload f).status = .Completed ∧
    countScheduled (runWorkload f).history = 30 ∧
    countCompleted (runWorkload f).history = 30 ∧
    countOrchestratorCompleted (runWorkload f).history = 1 ∧
    (runWorkload f).history.length = 61 ∧
    ((List.range 30).all fun c =>
      scheduledIn (runWorkload f).history c &&
        (completedOutput (runWorkload f).history c).isSome) = true := by
  rw [runWorkload_eq f]
  exact ⟨rfl, rfl, rfl, rfl, rfl, rfl⟩

/-- Claim C10: whenever all 10 fan-in joins of the hello-world
orchestration resolve successfully, the orchestrator's return value is
the literal string "Done", whatever the outputs `f` of the 30 activity
calls were. -/
theorem workload_result_is_done (f : Nat → String) :
    finalResult (runWorkload f) = some "Done" ∧ (runWorkload f).status = .Completed := by
  rw [runWorkload_eq f]
  exact ⟨rfl, rfl⟩

/-- Claim C6: replay is deterministic: two replay passes over an
identical history prefix — even on workers whose wall clocks read
different times — produce the identical next decision, hence the same
commands with the same call ids in the same order and the same activity
names.  The embedded workflow body consumes only replayed history, never
the clock, so the decision is a function of the prefix alone. -/
theorem replay_deterministic (now₁ now₂ : Nat) (h₁ h₂ : List Event) (hpre : h₁ = h₂) :
    nextDecisionAt now₁ h₁ = nextDecisionAt now₂ h₂ := by
  subst hpre
  rfl

/-- Witness for C6: two replays of the empty prefix at clock readings 0
and 7 agree, and both emit the first batch's three commands. -/
theorem replay_deterministic_witness :
    nextDecisionAt 0 [] = nextDecisionAt 7 [] ∧
    nextDecisionAt 0 [] =
      .suspend [(0, activityName), (1, activityName), (2, activityName)] :=
  ⟨replay_deterministic 0 7 [] [] rfl, rfl⟩

/-- A history consisting of `ActivityCompleted` events for the call ids
in `order` (the wall-clock completion order), each with output `f c`. -/
def completionHistory (order : List Nat) (f : Nat → String) : List Event :=
  order.map fun c => .ActivityCompleted c (f c)

/-- In a pure completion history, a call id that completed at any
position has its recorded output found by replay. -/
theorem completedOutput_completionHistory (order : List Nat) (f : Nat → String) (c : Nat)
    (hc : c ∈ order) : completedOutput (completionHistory order f) c = some (f c) := by
  induction order with
  | nil => cases hc
  | cons a t ih =>
    by_cases hac : a = c
    · subst hac
      simp [completionHistory, completedOutput]
    · have hbeq : (a == c) = false := by simp [hac]
      have hct : c ∈ t := by
        rcases List.mem_cons.mp hc with h | h
        · exact absurd h.symm hac
        · exact h
      simpa [completionHistory, completedOutput, hbeq] using ih hct

/-- Claim C5: the fan-in join returns the batch members' outputs in
submission order, whatever wall-clock order (`order`) the members
completed in — any completion order covering the batch yields
`batch.map f`. -/
theorem fanout_preserves_submission_order (batch order : List Nat) (f : Nat → String)
    (hcov : ∀ c ∈ batch, c ∈ order) :
    joinResults batch (completionHistory order f) = some (batch.map f) := by
  induction batch with
  | nil => rfl
  | cons c cs ih =>
    have h1 := completedOutput_completionHistory order f c (hcov c (List.mem_cons_self c cs))
    have h2 := ih fun x hx => hcov x (List.mem_cons_of_mem c hx)
    simp [joinResults, h1, h2]

/-- The sample outputs used in the fan-out witness. -/
def sampleOut : Nat → String :=
  fun n => "out" ++ toString n

/-- Witness for C5: calls [0, 1, 2] completing in wall-clock order
2, 0, 1 (the spec's "C, A, B") still join to [A's, B's, C's outputs]. -/
theorem fanout_preserves_submission_order_witness :
    joinResults [0, 1, 2] (completionHistory [2, 0, 1] sampleOut) =
      some [sampleOut 0, sampleOut 1, sampleOut 2] :=
  fanout_preserves_submission_order [0, 1, 2] [2, 0, 1] sampleOut (by decide)

/-- A resolved join has a Completed event recorded for every batch
member. -/
theorem joinResults_isSome_of_some (cs : List Nat) (h : List Event) (os : List String)
    (hj : joinResults cs h = some os) :
    ∀ c ∈ cs, (completedOutput h c).isSome = true := by
  induction cs generalizing os with
  | nil =>
    intro c hc
    cases hc
  | cons a t ih =>
    intro c hc
    cases ha : completedOutput h a with
    | none => simp [joinResults, ha] at hj
    | some o =>
      cases ht : joinResults t h with
      | none => simp [joinResults, ha, ht] at hj
      | some os2 =>
        rcases List.mem_cons.mp hc with rfl | hmem
        · simp [ha]
        · exact ih os2 ht c hmem

/-- Engine invariant: whenever replay starting at call id `k` with
`iters` iterations left suspends, some `t` batches were already fully
completed in the history, every emitted command belongs to batch `t`
(call ids `k + 3t .. k + 3t + 2`) and names the registered activity. -/
theorem replayIter_suspend_inv (iters : Nat) :
    ∀ k h cmds, replayIter iters k h = .suspend cmds →
      ∃ t, t < iters ∧
        (∀ j, j < 3 * t → (completedOutput h (k + j)).isSome = true) ∧
        ∀ c nm, (c, nm) ∈ cmds → k + 3 * t ≤ c ∧ c < k + 3 * t + 3 ∧ nm = activityName := by
  induction iters with
  | zero =>
    intro k h cmds hsus
    simp [replayIter] at hsus
  | succ n ih =>
    intro k h cmds hsus
    simp only [replayIter] at hsus
    cases hj : joinResults [k, k + 1, k + 2] h with
    | some os =>
      rw [hj] at hsus
      obtain ⟨t, htn, hcomp, hcmds⟩ := ih (k + 3) h cmds hsus
      refine ⟨t + 1, by omega, ?_, ?_⟩
      · intro j hjlt
        by_cases hj3 : j < 3
        · have hkj : k + j ∈ [k, k + 1, k + 2] := by
            interval_cases j <;> simp
          exact joinResults_isSome_of_some _ _ _ hj (k + j) hkj
        · have hc := hcomp (j - 3) (by omega)
          have heq : k + 3 + (j - 3) = k + j := by omega
          rwa [heq] at hc
      · intro c nm hmem
        obtain ⟨h1, h2, h3⟩ := hcmds c nm hmem
        exact ⟨by omega, by omega, h3⟩
    | none =>
      rw [hj] at hsus
      cases he : batchExhausted k h with
      | some err => simp [he] at hsus
      | none =>
        simp only [he] at hsus
        have hcmds : batchCmds k h = cmds := by
          cases hsus
          rfl
        refine ⟨0, by omega, ?_, ?_⟩
        · intro j hj0
          omega
        · intro c nm hmem
          rw [← hcmds] at hmem
          simp only [batchCmds, List.mem_map, List.mem_filter] at hmem
          obtain ⟨a, ⟨hain, _⟩, heq⟩ := hmem
          obtain ⟨rfl, rfl⟩ := Prod.mk.injEq .. |>.mp heq
          simp only [List.mem_cons, List.not_mem_nil, or_false] at hain
          rcases hain with rfl | rfl | rfl <;> exact ⟨by omega, by omega, rfl⟩

/-- Claim C4: whenever the engine, replaying a history prefix `h`, emits
a command scheduling a call `c` of iteration `i + 1`, every call of
iteration `i` (indeed of every earlier iteration) already has a terminal
event in `h` — iteration `i`'s fan-in is fully resolved before any
iteration `i + 1` call is issued. -/
theorem iteration_ordering (h : List Event) (cmds : List (Nat × String)) (c : Nat)
    (nm : String) (i : Nat) (hdec : nextDecision h = .suspend cmds)
    (hmem : (c, nm) ∈ cmds) (hiter : c / 3 = i + 1) :
    ∀ j, j / 3 = i → isTerminalIn h j = true := by
  obtain ⟨t, _, hcomp, hcmds⟩ := replayIter_suspend_inv 10 0 h cmds hdec
  obtain ⟨hle, hlt, _⟩ := hcmds c nm hmem
  intro j hj
  have hcj := hcomp j (by omega)
  rw [Nat.zero_add] at hcj
  simp [isTerminalIn, hcj]

/-- A concrete prefix for the C4 witness: iteration 0 scheduled and
completed, nothing else. -/
def demoPrefix : List Event :=
  [.ActivityScheduled 0 activityName, .ActivityScheduled 1 activityName,
   .ActivityScheduled 2 activityName, .ActivityCompleted 0 "a",
   .ActivityCompleted 1 "b", .ActivityCompleted 2 "c"]

/-- Witness for C4: on `demoPrefix` the engine emits iteration 1's call 3,
and each of iteration 0's calls indeed has a terminal event. -/
theorem iteration_ordering_witness :
    isTerminalIn demoPrefix 0 = true ∧ isTerminalIn demoPrefix 1 = true ∧
    isTerminalIn demoPrefix 2 = true :=
  ⟨iteration_ordering demoPrefix [(3, activityName), (4, activityName), (5, activityName)] 3
      activityName 0 rfl (List.mem_cons_self _ _) rfl 0 rfl,
   iteration_ordering demoPrefix [(3, activityName), (4, activityName), (5, activityName)] 3
      activityName 0 rfl (List.mem_cons_self _ _) rfl 1 rfl,
   iteration_ordering demoPrefix [(3, activityName), (4, activityName), (5, activityName)] 3
      activityName 0 rfl (List.mem_cons_self _ _) rfl 2 rfl⟩

/-- An HTTP response from the control plane: the status code, the
`WorkflowResponse` body fields on success (`src/main.py` lines 108-111,
159-163), and the `HTTPException` detail on failure (lines 167-169). -/
structure HttpReply where
  statusCode : Nat
  instance_id : Option String
  status : Option String
  message : Option String
  detail : Option String
deriving DecidableEq

/-- Modelled from the spec: the Instance Manager's schedule operation
(spec section 4.4), absent from `src/` (the SDK's
`schedule_new_workflow`): an instance id that already exists is rejected
with `InstanceAlreadyExistsError` and the store is untouched; otherwise
a fresh Pending instance with empty history is created under the id. -/
inductive ScheduleOutcome where
  | ok (store : List (String × Instance))
  | alreadyExists
deriving DecidableEq

/-- Modelled from the spec: see `ScheduleOutcome`. -/
def schedule_new_workflow (store : List (String × Instance)) (id : String) :
    ScheduleOutcome :=
  match store.lookup id with
  | some _ => .alreadyExists
  | none => .ok ((id, { status := .Pending, history := [] }) :: store)

/-- From `src/main.py` lines 140-169: the POST /workflow/hello endpoint.
`reqInstanceId` is the request body's optional instance_id and
`freshUuid` models `uuid.uuid4()`; Python's `request.instance_id or ...`
makes an absent (or empty) id fall back to the generated
`hello-world-{uuid}`.  On success the endpoint answers 200 with the
`WorkflowResponse`; any exception raised while scheduling — including an
already-exists rejection — is caught by the blanket `except Exception`
and converted to an `HTTPException` with status code 500. -/
def start_hello_workflow (store : List (String × Instance)) (reqInstanceId : Option String)
    (freshUuid : String) : HttpReply × List (String × Instance) :=
  let iid :=
    match reqInstanceId with
    | some s => if s == "" then "hello-world-" ++ freshUuid else s
    | none => "hello-world-" ++ freshUuid
  match schedule_new_workflow store iid with
  | .ok store2 =>
    ({ statusCode := 200, instance_id := some iid, status := some "started",
       message := some "Hello World workflow started successfully", detail := none },
     store2)
  | .alreadyExists =>
    ({ statusCode := 500, instance_id := none, status := none, message := none,
       detail := some "Failed to start workflow: instance already exists" },
     store)

/-- A store holding the already-running instance "demo-1". -/
def demoStore : List (String × Instance) :=
  [("demo-1", { status := .Running, history := demoPrefix })]

/-- Counterexample to C7 as stated: scheduling "demo-1" a second time
does not surface HTTP 409 — the endpoint's blanket exception handler
answers 500. -/
theorem schedule_collision_counterexample :
    (start_hello_workflow demoStore (some "demo-1") "u2").1.statusCode = 500 ∧
    ¬(start_hello_workflow demoStore (some "demo-1") "u2").1.statusCode = 409 :=
  ⟨rfl, by decide⟩

/-- Claim C7 (amended): a schedule request whose instance_id collides
with an existing instance is rejected by the scheduler with
`InstanceAlreadyExistsError` rather than silently restarting, and the
first instance's state is left unchanged — but the HTTP endpoint
surfaces the rejection as status 500 (its blanket exception handler),
not 409. -/
theorem schedule_collision_rejected (store : List (String × Instance)) (id fresh : String)
    (hex : (store.lookup id).isSome = true) (hne : id ≠ "") :
    schedule_new_workflow store id = .alreadyExists ∧
    (start_hello_workflow store (some id) fresh).1.statusCode = 500 ∧
    (start_hello_workflow store (some id) fresh).2 = store := by
  obtain ⟨inst, hl⟩ := Option.isSome_iff_exists.mp hex
  have hbe : (id == "") = false := beq_eq_false_iff_ne.mpr hne
  refine ⟨?_, ?_, ?_⟩ <;>
    simp [start_hello_workflow, schedule_new_workflow, hl, hbe]

/-- Witness for C7 (amended): the concrete collision on "demo-1". -/
theorem schedule_collision_rejected_witness :
    schedule_new_workflow demoStore "demo-1" = .alreadyExists ∧
    (start_hello_workflow demoStore (some "demo-1") "u9").1.statusCode = 500 ∧
    (start_hello_workflow demoStore (some "demo-1") "u9").2 = demoStore :=
  schedule_collision_rejected demoStore "demo-1" "u9" (by decide) (by decide)

/-- Result of the Instance Manager's state query. -/
inductive GetStateResult where
  | found (inst : Instance)
  | instanceNotFound
deriving DecidableEq

/-- Modelled from the spec: `get_state(instance_id) -> Instance |
NotFound` (spec section 4.4), absent from `src/`. -/
def get_state (store : List (String × Instance)) (id : String) : GetStateResult :=
  match store.lookup id with
  | some inst => .found inst
  | none => .instanceNotFound

/-- Modelled from the spec: the GET /workflow/instance_id endpoint (spec
section 6), absent from `src/`: the current Instance snapshot with 200,
or 404 when the Instance Manager reports not-found. -/
def get_workflow (store : List (String × Instance)) (id : String) : Nat × Option Instance :=
  match get_state store id with
  | .found inst => (200, some inst)
  | .instanceNotFound => (404, none)

/-- Claim C8: querying an instance_id that was never scheduled yields
`InstanceNotFoundError` from get_state — surfaced as HTTP 404 with no
state snapshot in the body — and no other outcome. -/
theorem query_unknown_instance_not_found (store : List (String × Instance)) (id : String)
    (habs : store.lookup id = none) :
    get_state store id = .instanceNotFound ∧
    (get_workflow store id).1 = 404 ∧
    (get_workflow store id).2 = none := by
  refine ⟨?_, ?_, ?_⟩ <;> simp [get_state, get_workflow, habs]

/-- Witness for C8: querying "never-scheduled" on an empty store. -/
theorem query_unknown_instance_not_found_witness :
    get_state [] "never-scheduled" = .instanceNotFound ∧
    (get_workflow [] "never-scheduled").1 = 404 ∧
    (get_workflow [] "never-scheduled").2 = none :=
  query_unknown_instance_not_found [] "never-scheduled" rfl

/-- Claim C9: a schedule request that supplies no instance_id makes the
endpoint generate the fresh identifier `hello-world-{uuid}`, start the
instance under it (it is in the store afterwards, freshly Pending), and
return that identifier to the caller with status "started". -/
theorem schedule_without_id_generates_fresh (store : List (String × Instance))
    (fresh : String) (hfree : store.lookup ("hello-world-" ++ fresh) = none) :
    (start_hello_workflow store none fresh).1.statusCode = 200 ∧
    (start_hello_workflow store none fresh).1.instance_id =
      some ("hello-world-" ++ fresh) ∧
    (start_hello_workflow store none fresh).1.status = some "started" ∧
    (start_hello_workflow store none fresh).2.lookup ("hello-world-" ++ fresh) =
      some { status := .Pending, history := [] } := by
  refine ⟨?_, ?_, ?_, ?_⟩ <;>
    simp [start_hello_workflow, schedule_new_workflow, hfree, List.lookup]

/-- Witness for C9: scheduling on an empty store with uuid "abc". -/
theorem schedule_without_id_generates_fresh_witness :
    (start_hello_workflow [] none "abc").1.statusCode = 200 ∧
    (start_hello_workflow [] none "abc").1.instance_id = some ("hello-world-" ++ "abc") ∧
    (start_hello_workflow [] none "abc").1.status = some "started" ∧
    (start_hello_workflow [] none "abc").2.lookup ("hello-world-" ++ "abc") =
      some { status := .Pending, history := [] } :=
  schedule_without_id_generates_fresh [] "abc" rfl
